import Mathlib

/-!
Verification of the pipeline orchestration core of `pipeline_coordinator.py`
(class `PipelineCoordinator`): the Stage Executor (`run_agent`), the Artifact
Locator (`find_latest_output_file`), the Input Validator (`validate_inputs`),
the Pipeline Orchestrator (`run_complete_pipeline`) and the Report Generator
(`generate_pipeline_report`).

Modelling conventions (shallow embedding):
* Wall-clock times and durations are natural numbers of seconds.
* The outcome of launching a stage subprocess is external nondeterminism,
  supplied by the environment as an `AgentBehavior`: either the child runs
  for some number of seconds and exits with a return code (producing stdout
  and stderr text), or launching raises an exception.
* `os.listdir('.')`/`os.path.getmtime` snapshots are supplied by the
  environment as `Except String (List DirEntry)` (the `error` case models a
  raised exception, caught by the source's `try`/`except`).
* `os.path.exists` is supplied as a predicate `String → Bool`.
* Python dicts with optional keys become structures with `Option` fields;
  a missing key is `none` and `stages := []` models the absent/empty stages
  dict.  The ordered `stages` dict is an association list in insertion order.
-/

namespace PipelineCoordinator

/-- One directory entry as seen by `os.listdir` together with its
`os.path.getmtime` modification timestamp (seconds). -/
structure DirEntry where
  name : String
  mtime : Nat
deriving Repr, DecidableEq

/-- Python `str.startswith`, executed on the character list of the string
(kernel-computable model of `String.startsWith`). -/
def strStartsWith (s pre : String) : Bool := pre.data.isPrefixOf s.data

/-- Python `str.endswith`, executed on the character list of the string
(kernel-computable model of `String.endsWith`). -/
def strEndsWith (s suf : String) : Bool := suf.data.isSuffixOf s.data

/-- Python `str.lower`, executed characterwise (the paths and keys involved
are ASCII, where `Char.toLower` agrees with Python). -/
def strToLower (s : String) : String := String.mk (s.data.map Char.toLower)

/-- External behaviour of one attempted stage-subprocess launch
(`subprocess.run(cmd, capture_output=True, text=True, timeout=600)`):
either the child process runs for `runtime` seconds and exits with
`returncode` having written `out`/`err` to its captured streams, or the
launch raises an exception with message `msg`. -/
inductive AgentBehavior where
  | runs (runtime : Nat) (returncode : Int) (out err : String)
  | launchError (msg : String)
deriving Repr, DecidableEq

/-- The dict returned by `PipelineCoordinator.run_agent`; keys that a given
branch of the source does not put into the dict are `none`. -/
structure AgentResult where
  success : Bool
  error : Option String := none
  stdout : Option String := none
  stderr : Option String := none
  duration : Option Nat := none
  stage : Option String := none
deriving Repr, DecidableEq

/-- The wall-clock timeout passed to `subprocess.run`:
`timeout=600  # 10 min timeout`. -/
def AGENT_TIMEOUT : Nat := 600

/-- Embedding of `PipelineCoordinator.run_agent(agent_script, args, stage_name)`.
The subprocess outcome for the constructed command is abstracted as the
`behavior` argument.  `subprocess.run` raises `TimeoutExpired` when the child
is still running after `AGENT_TIMEOUT` seconds; otherwise it completes and
the return code decides success. -/
def run_agent (behavior : AgentBehavior) (stage_name : String) : AgentResult :=
  match behavior with
  | AgentBehavior.runs runtime returncode out err =>
    if AGENT_TIMEOUT < runtime then
      { success := false
        error := some "Agent timed out after 10 minutes"
        stage := some stage_name }
    else if returncode != 0 then
      { success := false
        error := some (s!"Agent failed with return code {returncode}")
        stdout := some out
        stderr := some err
        duration := some runtime }
    else
      { success := true
        stdout := some out
        stderr := some err
        duration := some runtime
        stage := some stage_name }
  | AgentBehavior.launchError msg =>
    { success := false
      error := some ("Failed to run agent: " ++ msg)
      stage := some stage_name }

/-- Stable insertion step for `files.sort(key=lambda x:
os.path.getmtime(x), reverse=True)`: `x` is placed before the first entry
whose mtime does not exceed `x`'s, so among equal mtimes the entry listed
earlier stays first (Python's sort is stable). -/
def insertByMtimeDesc (x : DirEntry) : List DirEntry → List DirEntry
  | [] => [x]
  | y :: ys =>
    if y.mtime ≤ x.mtime then x :: y :: ys else y :: insertByMtimeDesc x ys

/-- Embedding of `files.sort(key=lambda x: os.path.getmtime(x), reverse=True)`.  A
stable sort by a fixed key is a unique function of the input list, so the
stable insertion sort below computes exactly the list Python's stable sort
produces: mtimes descending, ties in original listing order. -/
def sortByMtimeDesc : List DirEntry → List DirEntry
  | [] => []
  | x :: xs => insertByMtimeDesc x (sortByMtimeDesc xs)

/-- Embedding of `PipelineCoordinator.find_latest_output_file(pattern)`: filter the
directory listing to names that start with `pattern` and end with `.json`;
if none, `None`; otherwise stable-sort by modification time, newest first,
and return the first name.  The `error` case of `listdir` models an
exception inside the `try`, answered with `None`. -/
def find_latest_output_file (listdir : Except String (List DirEntry))
    (pattern : String) : Option String :=
  match listdir with
  | Except.error _ => none
  | Except.ok entries =>
    let files := entries.filter fun f =>
      strStartsWith f.name pattern && strEndsWith f.name ".json"
    if files.isEmpty then none
    else ((sortByMtimeDesc files).head?).map DirEntry.name

/-- The dict returned by `PipelineCoordinator.validate_inputs`. -/
structure ValidationResult where
  valid : Bool
  issues : List String
deriving Repr, DecidableEq

/-- The `required_agents` list checked by `validate_inputs`. -/
def required_agents : List String :=
  ["agent_1_comic_processor.py", "agent_2_script_editor.py",
   "agent_3_final_integrator.py"]

/-- Embedding of `PipelineCoordinator.validate_inputs(cbr_path)`.  `fs` is
`os.path.exists`; `competitor_data_path` and `openai_api_key` are the
constructor-stored attributes.  Issues are appended in source order and all
checks always run. -/
def validate_inputs (fs : String → Bool)
    (competitor_data_path openai_api_key cbr_path : String) : ValidationResult :=
  let issues : List String := []
  let issues := issues ++
    (if !fs cbr_path then
      [s!"CBR file not found: {cbr_path}"]
     else if !(strEndsWith (strToLower cbr_path) ".cbr"
               || strEndsWith (strToLower cbr_path) ".cbz"
               || strEndsWith (strToLower cbr_path) ".zip") then
      [s!"Invalid file type. Expected .cbr, .cbz, or .zip: {cbr_path}"]
     else [])
  let issues := issues ++
    (if !fs competitor_data_path then
      [s!"Competitor data file not found: {competitor_data_path}"]
     else if !strEndsWith (strToLower competitor_data_path) ".csv" then
      [s!"Invalid competitor data format. Expected .csv: {competitor_data_path}"]
     else [])
  let issues := issues ++
    (required_agents.filterMap fun agent =>
      if !fs agent then some s!"Agent script not found: {agent}" else none)
  let issues := issues ++
    (if !strStartsWith openai_api_key "sk-" then
      ["Invalid OpenAI API key format"]
     else [])
  { valid := issues.length == 0, issues := issues }

/-- The constructor state of a `PipelineCoordinator` instance. -/
structure Coordinator where
  openai_api_key : String
  competitor_data_path : String
  pipeline_id : String
  results_dir : String
deriving Repr, DecidableEq

/-- Embedding of `PipelineCoordinator.__init__(openai_api_key, competitor_data_path)`;
`now` is the value of `int(time.time())` at construction. -/
def mkCoordinator (openai_api_key competitor_data_path : String)
    (now : Nat) : Coordinator :=
  let pid := "pipeline_" ++ toString now
  { openai_api_key := openai_api_key
    competitor_data_path := competitor_data_path
    pipeline_id := pid
    results_dir := "results_" ++ pid }

/-- The external world a complete pipeline run interacts with: the
filesystem-existence predicate consulted by `validate_inputs`, the outcome
of each stage-subprocess launch as a function of the script name and its
argument list, the three working-directory snapshots taken by the three
`find_latest_output_file` calls, and the outcome of the `shutil.copy`
block (`error` models a raised exception, caught by the `except`). -/
structure PipelineEnv where
  fs : String → Bool
  subprocess : String → List String → AgentBehavior
  listdir1 : Except String (List DirEntry)
  listdir2 : Except String (List DirEntry)
  listdir3 : Except String (List DirEntry)
  copyResult : Except String Unit

/-- The dict returned by `PipelineCoordinator.run_complete_pipeline`; keys
the source never put into the dict on a given path are `none`, and the
ordered `stages` sub-dict is the association list `stages` (absent and
empty both `[]`). -/
structure PipelineResults where
  success : Option Bool := none
  error : Option String := none
  issues : Option (List String) := none
  pipeline_id : Option String := none
  start_time : Option Nat := none
  cbr_file : Option String := none
  target_duration : Option Int := none
  stages : List (String × AgentResult) := []
  failed_at : Option String := none
  end_time : Option Nat := none
  total_duration : Option Nat := none
  final_output_file : Option String := none
  results_directory : Option String := none
deriving Repr, DecidableEq

/-- Embedding of `PipelineCoordinator.run_complete_pipeline(cbr_path, target_duration)`.
`pipeline_start` and `pipeline_end` are the two `time.time()` readings. -/
def run_complete_pipeline (c : Coordinator) (env : PipelineEnv)
    (pipeline_start pipeline_end : Nat)
    (cbr_path : String) (target_duration : Int) : PipelineResults :=
  let validation := validate_inputs env.fs c.competitor_data_path
    c.openai_api_key cbr_path
  if !validation.valid then
    { success := some false
      error := some "Input validation failed"
      issues := some validation.issues }
  else
    let base : PipelineResults :=
      { pipeline_id := some c.pipeline_id
        start_time := some pipeline_start
        cbr_file := some cbr_path
        target_duration := some target_duration
        stages := [] }
    let stage_1_result := run_agent
      (env.subprocess "agent_1_comic_processor.py"
        [cbr_path, c.openai_api_key, toString target_duration])
      "AGENT 1: Comic Processor & Script Creator"
    let r1 := { base with stages := base.stages ++ [("agent_1", stage_1_result)] }
    if !stage_1_result.success then
      { r1 with success := some false, failed_at := some "Agent 1" }
    else
      match find_latest_output_file env.listdir1 "agent_1_output_" with
      | none =>
        { r1 with success := some false
                  error := some "Could not find Agent 1 output file" }
      | some agent_1_output =>
        let stage_2_result := run_agent
          (env.subprocess "agent_2_script_editor.py"
            [agent_1_output, c.competitor_data_path, c.openai_api_key])
          "AGENT 2: Script Editor & Competitive Analyst"
        let r2 := { r1 with stages := r1.stages ++ [("agent_2", stage_2_result)] }
        if !stage_2_result.success then
          { r2 with success := some false, failed_at := some "Agent 2" }
        else
          match find_latest_output_file env.listdir2 "agent_2_output_" with
          | none =>
            { r2 with success := some false
                      error := some "Could not find Agent 2 output file" }
          | some agent_2_output =>
            let stage_3_result := run_agent
              (env.subprocess "agent_3_final_integrator.py"
                [agent_2_output, c.openai_api_key, toString target_duration])
              "AGENT 3: Final Integration Specialist"
            let r3 := { r2 with stages := r2.stages ++ [("agent_3", stage_3_result)] }
            if !stage_3_result.success then
              { r3 with success := some false, failed_at := some "Agent 3" }
            else
              match find_latest_output_file env.listdir3 "final_output_" with
              | none =>
                { r3 with success := some false
                          error := some "Could not find final output file" }
              | some final_output =>
                let r4 := match env.copyResult with
                  | Except.ok _ => r3
                  | Except.error _ => r3
                { r4 with success := some true
                          end_time := some pipeline_end
                          total_duration := some (pipeline_end - pipeline_start)
                          final_output_file := some final_output
                          results_directory := some c.results_dir }

/-- The `'='*80` separator line of the report. -/
def eqBar : String := String.mk (List.replicate 80 '=')

/-- Renders a duration the way `f"{x:.2f}"` renders the model's whole-second
durations. -/
def fmtSeconds (n : Nat) : String := toString n ++ ".00"

/-- Embedding of `PipelineCoordinator.generate_pipeline_report(pipeline_results)`:
`dict.get(k, d)` becomes `Option.getD`, and the truthiness test of
`pipeline_results.get('success')` (absent key is falsy) becomes
`(·.getD false)`. -/
def generate_pipeline_report (r : PipelineResults) : String :=
  let header :=
    "\n" ++ eqBar ++ "\nCOMIC-TO-YOUTUBE SCRIPT PIPELINE REPORT\n" ++ eqBar
    ++ "\n\nPipeline ID: " ++ r.pipeline_id.getD "Unknown"
    ++ "\nSource CBR: " ++ r.cbr_file.getD "Unknown"
    ++ "\nTarget Duration: "
    ++ (match r.target_duration with
        | some d => toString d
        | none => "Unknown")
    ++ " seconds\n\nEXECUTION SUMMARY:\nStatus: "
    ++ (if r.success.getD false then "SUCCESS" else "FAILED")
    ++ "\nTotal Duration: " ++ fmtSeconds (r.total_duration.getD 0)
    ++ " seconds\n"
  let failPart :=
    if !r.success.getD false then
      "Failed At: " ++ r.failed_at.getD "Unknown" ++ "\n"
      ++ (match r.error with
          | some e => "Error: " ++ e ++ "\n"
          | none => "")
    else ""
  let stagesPart :=
    "\nSTAGE BREAKDOWN:\n"
    ++ String.join (r.stages.map fun p =>
        "  " ++ p.1 ++ ": " ++ (if p.2.success then "SUCCESS" else "FAILED")
        ++ " (" ++ fmtSeconds (p.2.duration.getD 0) ++ "s)\n"
        ++ (if !p.2.success then
              match p.2.error with
              | some e => "    Error: " ++ e ++ "\n"
              | none => ""
            else ""))
  let finalPart :=
    if r.success.getD false then
      "\nFINAL OUTPUT: " ++ r.final_output_file.getD "Not found" ++ "\n"
      ++ "RESULTS SAVED TO: " ++ r.results_directory.getD "Not saved" ++ "\n"
    else ""
  header ++ failPart ++ stagesPart ++ finalPart ++ "\n" ++ eqBar

/-- One step of a left-to-right maximum scan: keep the current best unless
the next entry is strictly newer, so the earliest entry among equal mtimes
is retained. -/
def pickLater (best x : DirEntry) : DirEntry :=
  if best.mtime < x.mtime then x else best

/-- The first entry of a nonempty list attaining the maximal mtime,
as a fold. -/
def firstNewest (x : DirEntry) (xs : List DirEntry) : DirEntry :=
  xs.foldl pickLater x

theorem foldl_pickLater_cons (t : List DirEntry) : ∀ (a h : DirEntry),
    (h :: t).foldl pickLater a =
      (if (t.foldl pickLater h).mtime ≤ a.mtime then a
       else t.foldl pickLater h) := by
  induction t with
  | nil =>
    intro a h
    simp only [List.foldl, pickLater]
    repeat' split
    all_goals first | rfl | omega
  | cons u t' ih =>
    intro a h
    show (u :: t').foldl pickLater (pickLater a h) = _
    rw [ih (pickLater a h) u]
    conv_rhs => rw [show (u :: t').foldl pickLater h
      = (if (t'.foldl pickLater u).mtime ≤ h.mtime then h
         else t'.foldl pickLater u) from ih h u]
    simp only [pickLater]
    repeat' split
    all_goals first | rfl | omega

theorem head_sortByMtimeDesc : ∀ (xs : List DirEntry) (x : DirEntry),
    (sortByMtimeDesc (x :: xs)).head? = some (firstNewest x xs) := by
  intro xs
  induction xs with
  | nil => intro x; rfl
  | cons u xs' ih =>
    intro x
    have hh := ih u
    show (insertByMtimeDesc x (sortByMtimeDesc (u :: xs'))).head? = _
    cases hs : sortByMtimeDesc (u :: xs') with
    | nil => rw [hs] at hh; simp at hh
    | cons m rest =>
      rw [hs] at hh
      simp only [List.head?_cons, Option.some.injEq, firstNewest] at hh
      have hfold : firstNewest x (u :: xs')
          = (if m.mtime ≤ x.mtime then x else m) := by
        show (u :: xs').foldl pickLater x = _
        rw [foldl_pickLater_cons xs' x u, ← hh]
      rw [hfold]
      simp only [insertByMtimeDesc]
      split
      · simp_all
      · simp_all

theorem insertByMtimeDesc_ne_nil (x : DirEntry) (l : List DirEntry) :
    insertByMtimeDesc x l ≠ [] := by
  cases l with
  | nil => simp [insertByMtimeDesc]
  | cons y ys => simp only [insertByMtimeDesc]; split <;> simp

theorem sortByMtimeDesc_eq_nil_iff (l : List DirEntry) :
    sortByMtimeDesc l = [] ↔ l = [] := by
  cases l with
  | nil => simp [sortByMtimeDesc]
  | cons x xs =>
    simp only [sortByMtimeDesc]
    constructor
    · intro h; exact absurd h (insertByMtimeDesc_ne_nil x _)
    · intro h; cases h

theorem foldl_pickLater_acc_le : ∀ (l : List DirEntry) (a : DirEntry),
    a.mtime ≤ (l.foldl pickLater a).mtime := by
  intro l
  induction l with
  | nil => intro a; exact Nat.le_refl _
  | cons h t ih =>
    intro a
    have h1 : a.mtime ≤ (pickLater a h).mtime := by
      simp only [pickLater]; split <;> omega
    exact Nat.le_trans h1 (ih (pickLater a h))

theorem foldl_pickLater_mem : ∀ (l : List DirEntry) (a : DirEntry),
    l.foldl pickLater a ∈ a :: l := by
  intro l
  induction l with
  | nil => intro a; simp
  | cons h t ih =>
    intro a
    show t.foldl pickLater (pickLater a h) ∈ a :: h :: t
    have hmem := ih (pickLater a h)
    have hp : pickLater a h = a ∨ pickLater a h = h := by
      simp only [pickLater]; split <;> simp
    simp only [List.mem_cons] at hmem ⊢
    rcases hmem with h1 | h1
    · rcases hp with h2 | h2
      · left; rw [h1, h2]
      · right; left; rw [h1, h2]
    · right; right; exact h1

theorem foldl_pickLater_le : ∀ (l : List DirEntry) (a x : DirEntry),
    x ∈ a :: l → x.mtime ≤ (l.foldl pickLater a).mtime := by
  intro l
  induction l with
  | nil =>
    intro a x hx
    simp at hx
    subst hx
    exact Nat.le_refl _
  | cons h t ih =>
    intro a x hx
    have hph : h.mtime ≤ (pickLater a h).mtime := by
      simp only [pickLater]; split <;> omega
    have hpa : a.mtime ≤ (pickLater a h).mtime := by
      simp only [pickLater]; split <;> omega
    have hacc := foldl_pickLater_acc_le t (pickLater a h)
    simp only [List.mem_cons] at hx
    show x.mtime ≤ (t.foldl pickLater (pickLater a h)).mtime
    rcases hx with rfl | rfl | hx
    · exact Nat.le_trans hpa hacc
    · exact Nat.le_trans hph hacc
    · exact ih (pickLater a h) x (List.mem_cons_of_mem _ hx)

/-- Kernel-computable lexicographic order on character lists (by code
point), for the spec's "lexicographic on name" tie-break. -/
def charListLt : List Char → List Char → Bool
  | [], [] => false
  | [], _ :: _ => true
  | _ :: _, [] => false
  | c :: cs, d :: ds =>
    if c.toNat < d.toNat then true
    else if d.toNat < c.toNat then false
    else charListLt cs ds

/-- Kernel-computable lexicographic order on strings. -/
def strLt (a b : String) : Bool := charListLt a.data b.data

/-- Modelled from the spec: the Artifact Locator with ties between equal
modification timestamps broken "lexicographically on name" (the spec's
suggested deterministic tie-break), used to compare the source's actual
tie-break against the spec's words. -/
def pickLaterLex (best x : DirEntry) : DirEntry :=
  if best.mtime < x.mtime then x
  else if x.mtime = best.mtime && strLt x.name best.name then x
  else best

/-- Modelled from the spec: `find_latest` selecting the maximum-mtime match
with lexicographic-on-name tie-breaking. -/
def find_latest_lexTie (entries : List DirEntry) (pattern : String) :
    Option String :=
  let files := entries.filter fun f =>
    strStartsWith f.name pattern && strEndsWith f.name ".json"
  match files with
  | [] => none
  | f :: rest => some (rest.foldl pickLaterLex f).name

end PipelineCoordinator

namespace PipelineCoordinator

/-- C6, amended: `find_latest_output_file` returns not-found exactly when no
directory entry matches the prefix-and-`.json` filter (also when listing the
directory raises); otherwise it returns the name of the matching entry with
the maximum modification timestamp, where ties between equal timestamps are
broken by position in the directory listing (the earliest listed matching
entry wins, by stability of the sort), not lexicographically on name. -/
theorem claim_C6 (entries : List DirEntry) (pattern emsg : String) :
    (find_latest_output_file (Except.error emsg) pattern = none) ∧
    ((entries.filter fun g =>
        strStartsWith g.name pattern && strEndsWith g.name ".json") = [] →
      find_latest_output_file (Except.ok entries) pattern = none) ∧
    (∀ (f : DirEntry) (rest : List DirEntry),
      (entries.filter fun g =>
        strStartsWith g.name pattern && strEndsWith g.name ".json") = f :: rest →
      find_latest_output_file (Except.ok entries) pattern
          = some (firstNewest f rest).name ∧
      firstNewest f rest ∈ f :: rest ∧
      ∀ x ∈ f :: rest, x.mtime ≤ (firstNewest f rest).mtime) := by
  refine ⟨rfl, ?_, ?_⟩
  · intro h
    simp [find_latest_output_file, h]
  · intro f rest h
    refine ⟨?_, foldl_pickLater_mem rest f, fun x hx => foldl_pickLater_le rest f x hx⟩
    simp only [find_latest_output_file, h, List.isEmpty_cons, Bool.false_eq_true,
      if_false, head_sortByMtimeDesc, Option.map_some']

/-- C6 witness: on a concrete listing with a non-matching entry and two
matches of different mtimes, the locator returns the newer match. -/
theorem claim_C6_witness :
    find_latest_output_file
      (Except.ok [⟨"agent_1_output_a.json", 3⟩, ⟨"nope.txt", 9⟩,
                  ⟨"agent_1_output_b.json", 7⟩]) "agent_1_output_"
      = some "agent_1_output_b.json" := by
  have h := (claim_C6
    [⟨"agent_1_output_a.json", 3⟩, ⟨"nope.txt", 9⟩, ⟨"agent_1_output_b.json", 7⟩]
    "agent_1_output_" "oops").2.2
    ⟨"agent_1_output_a.json", 3⟩ [⟨"agent_1_output_b.json", 7⟩] (by decide)
  exact h.1

/-- C6 counterexample: with two matches of equal mtime the source returns
the one listed first, while lexicographic tie-breaking (as the claim
states) would return the other. -/
theorem claim_C6_counterexample :
    find_latest_output_file
      (Except.ok [⟨"agent_1_output_b.json", 5⟩, ⟨"agent_1_output_a.json", 5⟩])
      "agent_1_output_" = some "agent_1_output_b.json" ∧
    find_latest_lexTie
      [⟨"agent_1_output_b.json", 5⟩, ⟨"agent_1_output_a.json", 5⟩]
      "agent_1_output_" = some "agent_1_output_a.json" ∧
    ("agent_1_output_b.json" : String) ≠ "agent_1_output_a.json" := by
  refine ⟨by decide, by decide, by decide⟩

/-- C4: a stage whose child process is still running after `timeout_seconds`
(600) yields a failed `StageResult` whose reason is the timeout message, and
the orchestrator never runs a stage twice: the recorded stage keys of any
complete run are pairwise distinct. -/
theorem claim_C4 :
    (∀ (stage_name : String) (runtime : Nat) (rc : Int) (out err : String),
      AGENT_TIMEOUT < runtime →
      run_agent (AgentBehavior.runs runtime rc out err) stage_name =
        { success := false, error := some "Agent timed out after 10 minutes",
          stage := some stage_name }) ∧
    (∀ (c : Coordinator) (env : PipelineEnv) (ps pe : Nat)
       (cbr : String) (td : Int),
      ((run_complete_pipeline c env ps pe cbr td).stages.map Prod.fst).Nodup) := by
  constructor
  · intro stage_name runtime rc out err h
    simp only [run_agent]
    rw [if_pos h]
  · intro c env ps pe cbr td
    unfold run_complete_pipeline
    dsimp only
    repeat' split
    all_goals simp

/-- C4 witness: a concrete over-long run (601 s) is reported as a timeout
failure. -/
theorem claim_C4_witness :
    run_agent (AgentBehavior.runs 601 0 "out" "err") "AGENT 1: Comic Processor & Script Creator" =
      { success := false, error := some "Agent timed out after 10 minutes",
        stage := some "AGENT 1: Comic Processor & Script Creator" } :=
  claim_C4.1 "AGENT 1: Comic Processor & Script Creator" 601 0 "out" "err" (by decide)

/-- C5 counterexample: a timed-out stage's result carries no captured
stdout, stderr or duration at all, contradicting the claim that every
`StageResult` (timeout included) contains them. -/
theorem claim_C5_counterexample :
    (run_agent (AgentBehavior.runs 601 0 "partial out" "partial err")
      "AGENT 2: Script Editor & Competitive Analyst").stdout = none ∧
    (run_agent (AgentBehavior.runs 601 0 "partial out" "partial err")
      "AGENT 2: Script Editor & Competitive Analyst").stderr = none ∧
    (run_agent (AgentBehavior.runs 601 0 "partial out" "partial err")
      "AGENT 2: Script Editor & Competitive Analyst").duration = none := by
  refine ⟨by decide, by decide, by decide⟩

/-- C5, amended: `StageResult`s of child processes that complete within the
timeout (zero or non-zero exit) carry the verbatim captured stdout, stderr
and the wall-clock duration; timeout and launch-failure results carry none
of these (only an error message, and the stage name). -/
theorem claim_C5 :
    (∀ (stage_name : String) (runtime : Nat) (rc : Int) (out err : String),
      runtime ≤ AGENT_TIMEOUT →
      (run_agent (AgentBehavior.runs runtime rc out err) stage_name).stdout = some out ∧
      (run_agent (AgentBehavior.runs runtime rc out err) stage_name).stderr = some err ∧
      (run_agent (AgentBehavior.runs runtime rc out err) stage_name).duration = some runtime) ∧
    (∀ (stage_name : String) (runtime : Nat) (rc : Int) (out err : String),
      AGENT_TIMEOUT < runtime →
      (run_agent (AgentBehavior.runs runtime rc out err) stage_name).stdout = none ∧
      (run_agent (AgentBehavior.runs runtime rc out err) stage_name).stderr = none ∧
      (run_agent (AgentBehavior.runs runtime rc out err) stage_name).duration = none) ∧
    (∀ (stage_name msg : String),
      (run_agent (AgentBehavior.launchError msg) stage_name).stdout = none ∧
      (run_agent (AgentBehavior.launchError msg) stage_name).stderr = none ∧
      (run_agent (AgentBehavior.launchError msg) stage_name).duration = none) := by
  refine ⟨?_, ?_, ?_⟩
  · intro stage_name runtime rc out err h
    simp only [run_agent]
    rw [if_neg (Nat.not_lt.mpr h)]
    split <;> simp
  · intro stage_name runtime rc out err h
    simp only [run_agent]
    rw [if_pos h]
    simp
  · intro stage_name msg
    simp [run_agent]

/-- C5 witness: a concrete non-zero exit within the timeout keeps stdout,
stderr and duration; a concrete timeout keeps none. -/
theorem claim_C5_witness :
    (run_agent (AgentBehavior.runs 2 3 "o" "e") "S").stdout = some "o" ∧
    (run_agent (AgentBehavior.runs 601 0 "o" "e") "S").stdout = none := by
  exact ⟨(claim_C5.1 "S" 2 3 "o" "e" (by decide)).1,
         (claim_C5.2.1 "S" 601 0 "o" "e" (by decide)).1⟩

/-- C10: the per-stage budget is the single constant 600 seconds: for every
stage name and every child behaviour, the executor reports the timeout
result exactly when the child needs more than 600 seconds — the cut-off
does not depend on the stage or on any parameter. -/
theorem claim_C10 :
    AGENT_TIMEOUT = 600 ∧
    ∀ (stage_name : String) (runtime : Nat) (rc : Int) (out err : String),
      (600 < runtime ↔
        run_agent (AgentBehavior.runs runtime rc out err) stage_name =
          { success := false, error := some "Agent timed out after 10 minutes",
            stage := some stage_name }) := by
  refine ⟨rfl, ?_⟩
  intro stage_name runtime rc out err
  constructor
  · intro h
    simp only [run_agent, AGENT_TIMEOUT]
    rw [if_pos h]
  · intro h
    by_contra hn
    simp only [run_agent, AGENT_TIMEOUT] at h
    rw [if_neg hn] at h
    split at h <;> simp [AgentResult.mk.injEq] at h

/-- C10 witness: at the concrete boundary, 600 seconds does not time out
and 601 seconds does. -/
theorem claim_C10_witness :
    run_agent (AgentBehavior.runs 601 7 "o" "e") "S" =
      { success := false, error := some "Agent timed out after 10 minutes",
        stage := some "S" } :=
  (claim_C10.2 "S" 601 7 "o" "e").mp (by decide)

/-- The `validate_inputs` check on the source archive path, in isolation. -/
def source_file_check (fs : String → Bool) (cbr_path : String) : List String :=
  if !fs cbr_path then
    [s!"CBR file not found: {cbr_path}"]
  else if !(strEndsWith (strToLower cbr_path) ".cbr"
            || strEndsWith (strToLower cbr_path) ".cbz"
            || strEndsWith (strToLower cbr_path) ".zip") then
    [s!"Invalid file type. Expected .cbr, .cbz, or .zip: {cbr_path}"]
  else []

/-- The `validate_inputs` check on the competitor-data path, in isolation. -/
def competitor_data_check (fs : String → Bool)
    (competitor_data_path : String) : List String :=
  if !fs competitor_data_path then
    [s!"Competitor data file not found: {competitor_data_path}"]
  else if !strEndsWith (strToLower competitor_data_path) ".csv" then
    [s!"Invalid competitor data format. Expected .csv: {competitor_data_path}"]
  else []

/-- The `validate_inputs` check on the three stage programs, in isolation. -/
def agent_scripts_check (fs : String → Bool) : List String :=
  required_agents.filterMap fun agent =>
    if !fs agent then some s!"Agent script not found: {agent}" else none

/-- The `validate_inputs` check on the credential shape, in isolation. -/
def api_key_check (openai_api_key : String) : List String :=
  if !strStartsWith openai_api_key "sk-" then
    ["Invalid OpenAI API key format"]
  else []

/-- C7: the Input Validator is a total function (never raises — it is a
plain Lean function into `ValidationResult`), its `valid` flag is true
exactly when the issue list is empty, and the issue list is the
concatenation of the four independent checks in source order — every check
always runs (collect-all, not fail-fast). -/
theorem claim_C7 (fs : String → Bool)
    (competitor_data_path openai_api_key cbr_path : String) :
    ((validate_inputs fs competitor_data_path openai_api_key cbr_path).valid = true ↔
      (validate_inputs fs competitor_data_path openai_api_key cbr_path).issues = []) ∧
    (validate_inputs fs competitor_data_path openai_api_key cbr_path).issues =
      source_file_check fs cbr_path
        ++ competitor_data_check fs competitor_data_path
        ++ agent_scripts_check fs
        ++ api_key_check openai_api_key := by
  constructor
  · simp [validate_inputs, List.length_eq_zero]
  · simp [validate_inputs, source_file_check, competitor_data_check,
      agent_scripts_check, api_key_check, List.append_assoc]

/-- A concrete coordinator for witnesses: valid credential shape, `.csv`
competitor data. -/
def coordW : Coordinator := mkCoordinator "sk-test" "d.csv" 0

/-- A concrete environment in which every input exists, all three stages
exit 0 within the timeout, and each stage's artifact is discoverable. -/
def envAllOk : PipelineEnv :=
  { fs := fun _ => true
    subprocess := fun _ _ => AgentBehavior.runs 1 0 "so" "se"
    listdir1 := Except.ok [⟨"agent_1_output_1.json", 1⟩]
    listdir2 := Except.ok [⟨"agent_2_output_1.json", 2⟩]
    listdir3 := Except.ok [⟨"final_output_1.json", 3⟩]
    copyResult := Except.ok () }

/-- Like `envAllOk` except stage 1 writes no discoverable artifact. -/
def envArtifact1Missing : PipelineEnv := { envAllOk with listdir1 := Except.ok [] }

/-- Like `envAllOk` except stage 2 writes no discoverable artifact. -/
def envArtifact2Missing : PipelineEnv := { envAllOk with listdir2 := Except.ok [] }

/-- Like `envAllOk` except stage 1's program exits with a non-zero code. -/
def envStage1Fails : PipelineEnv :=
  { envAllOk with
    subprocess := fun script _ =>
      if script = "agent_1_comic_processor.py" then
        AgentBehavior.runs 1 2 "boom" "trace"
      else AgentBehavior.runs 1 0 "so" "se" }

/-- C1: in every run the recorded stage keys form a prefix of the fixed
sequence `agent_1, agent_2, agent_3` in execution order, every stage before
the last recorded one succeeded (no stage is attempted after a subprocess
failure), no stage key is recorded twice, and failure by missing artifact
also stops the run: when stage 1's working-directory snapshot holds no
matching artifact neither stage 2 nor stage 3 is ever attempted, and when
stage 2's snapshot holds none stage 3 is never attempted. -/
theorem claim_C1 (c : Coordinator) (env : PipelineEnv) (ps pe : Nat)
    (cbr : String) (td : Int) :
    ((run_complete_pipeline c env ps pe cbr td).stages.map Prod.fst
      <+: ["agent_1", "agent_2", "agent_3"]) ∧
    (∀ p ∈ (run_complete_pipeline c env ps pe cbr td).stages.dropLast,
      p.2.success = true) ∧
    ((run_complete_pipeline c env ps pe cbr td).stages.map Prod.fst).Nodup ∧
    (find_latest_output_file env.listdir1 "agent_1_output_" = none →
      "agent_2" ∉ (run_complete_pipeline c env ps pe cbr td).stages.map Prod.fst ∧
      "agent_3" ∉ (run_complete_pipeline c env ps pe cbr td).stages.map Prod.fst) ∧
    (find_latest_output_file env.listdir2 "agent_2_output_" = none →
      "agent_3" ∉ (run_complete_pipeline c env ps pe cbr td).stages.map Prod.fst) := by
  refine ⟨?_, ?_, ?_, ?_, ?_⟩ <;>
    (unfold run_complete_pipeline; dsimp only; repeat' split) <;>
    simp_all

/-- C1 witness: in the all-success run, the first recorded stage result
(which precedes the last) is a success. -/
theorem claim_C1_witness :
    ("agent_1", run_agent (AgentBehavior.runs 1 0 "so" "se")
      "AGENT 1: Comic Processor & Script Creator").2.success = true :=
  (claim_C1 coordW envAllOk 0 9 "c.cbr" 75).2.1
    ("agent_1", run_agent (AgentBehavior.runs 1 0 "so" "se")
      "AGENT 1: Comic Processor & Script Creator") (by decide)

/-- C2 counterexample: when stage 1 exits 0 but its artifact is missing,
the run's status is failed yet `failed_at` is unset — refuting "failed_stage
is set iff the run's status is failed". -/
theorem claim_C2_counterexample :
    (run_complete_pipeline coordW envArtifact1Missing 0 0 "c.cbr" 75).success
      = some false ∧
    (run_complete_pipeline coordW envArtifact1Missing 0 0 "c.cbr" 75).failed_at
      = none := by
  refine ⟨by decide, by decide⟩

/-- C2, amended: `failed_at` is set iff the run failed because the last
attempted stage's subprocess execution failed (validation failures and
missing-artifact failures leave it unset, recording an `error` instead);
when set to stage `k`'s label, the run's status is failed, exactly stages
`1..k` were attempted and no StageResult exists for stage `k+1` or
later. -/
theorem claim_C2 (c : Coordinator) (env : PipelineEnv) (ps pe : Nat)
    (cbr : String) (td : Int) :
    (((run_complete_pipeline c env ps pe cbr td).failed_at ≠ none) ↔
      (∃ p, (run_complete_pipeline c env ps pe cbr td).stages.getLast? = some p ∧
        p.2.success = false)) ∧
    ((run_complete_pipeline c env ps pe cbr td).failed_at ≠ none →
      (run_complete_pipeline c env ps pe cbr td).success = some false) ∧
    ((run_complete_pipeline c env ps pe cbr td).failed_at = some "Agent 1" →
      (run_complete_pipeline c env ps pe cbr td).stages.map Prod.fst
        = ["agent_1"]) ∧
    ((run_complete_pipeline c env ps pe cbr td).failed_at = some "Agent 2" →
      (run_complete_pipeline c env ps pe cbr td).stages.map Prod.fst
        = ["agent_1", "agent_2"]) ∧
    ((run_complete_pipeline c env ps pe cbr td).failed_at = some "Agent 3" →
      (run_complete_pipeline c env ps pe cbr td).stages.map Prod.fst
        = ["agent_1", "agent_2", "agent_3"]) := by
  refine ⟨?_, ?_, ?_, ?_, ?_⟩ <;>
    (unfold run_complete_pipeline; dsimp only; repeat' split) <;>
    simp_all

/-- C2 witness: when stage 1's program exits non-zero, `failed_at` is
`Agent 1` and only stage 1 was attempted. -/
theorem claim_C2_witness :
    (run_complete_pipeline coordW envStage1Fails 0 0 "c.cbr" 75).stages.map
      Prod.fst = ["agent_1"] :=
  (claim_C2 coordW envStage1Fails 0 0 "c.cbr" 75).2.2.1 (by decide)

/-- C3 counterexample: stage 2 exits 0 but writes no matching artifact; the
run fails with an artifact-missing error and stage 3 is never attempted,
but `failed_at` is left unset — refuting "that stage recorded as the failed
stage". -/
theorem claim_C3_counterexample :
    (run_complete_pipeline coordW envArtifact2Missing 0 0 "c.cbr" 75).success
      = some false ∧
    (run_complete_pipeline coordW envArtifact2Missing 0 0 "c.cbr" 75).error
      = some "Could not find Agent 2 output file" ∧
    (run_complete_pipeline coordW envArtifact2Missing 0 0 "c.cbr" 75).failed_at
      = none := by
  refine ⟨by decide, by decide, by decide⟩

/-- C3, amended: whenever a stage's subprocess exits 0 but the Artifact
Locator finds no file matching that stage's output prefix, the run fails
with that stage's own artifact-missing error message ("Could not find Agent
1 output file", "Could not find Agent 2 output file", or — for stage 3 —
"Could not find final output file") and no later stage is ever launched;
however the failing stage is recorded only in that error message, not in
`failed_at`, which stays unset. -/
theorem claim_C3 (c : Coordinator) (env : PipelineEnv) (ps pe : Nat)
    (cbr : String) (td : Int)
    (hv : (validate_inputs env.fs c.competitor_data_path c.openai_api_key cbr).valid
      = true)
    (h1 : (run_agent (env.subprocess "agent_1_comic_processor.py"
            [cbr, c.openai_api_key, toString td])
            "AGENT 1: Comic Processor & Script Creator").success = true) :
    (find_latest_output_file env.listdir1 "agent_1_output_" = none →
      (run_complete_pipeline c env ps pe cbr td).success = some false ∧
      (run_complete_pipeline c env ps pe cbr td).error
        = some "Could not find Agent 1 output file" ∧
      (run_complete_pipeline c env ps pe cbr td).failed_at = none ∧
      (run_complete_pipeline c env ps pe cbr td).stages.map Prod.fst
        = ["agent_1"]) ∧
    (∀ o1 : String,
      find_latest_output_file env.listdir1 "agent_1_output_" = some o1 →
      (run_agent (env.subprocess "agent_2_script_editor.py"
        [o1, c.competitor_data_path, c.openai_api_key])
        "AGENT 2: Script Editor & Competitive Analyst").success = true →
      find_latest_output_file env.listdir2 "agent_2_output_" = none →
      (run_complete_pipeline c env ps pe cbr td).success = some false ∧
      (run_complete_pipeline c env ps pe cbr td).error
        = some "Could not find Agent 2 output file" ∧
      (run_complete_pipeline c env ps pe cbr td).failed_at = none ∧
      (run_complete_pipeline c env ps pe cbr td).stages.map Prod.fst
        = ["agent_1", "agent_2"]) ∧
    (∀ o1 o2 : String,
      find_latest_output_file env.listdir1 "agent_1_output_" = some o1 →
      (run_agent (env.subprocess "agent_2_script_editor.py"
        [o1, c.competitor_data_path, c.openai_api_key])
        "AGENT 2: Script Editor & Competitive Analyst").success = true →
      find_latest_output_file env.listdir2 "agent_2_output_" = some o2 →
      (run_agent (env.subprocess "agent_3_final_integrator.py"
        [o2, c.openai_api_key, toString td])
        "AGENT 3: Final Integration Specialist").success = true →
      find_latest_output_file env.listdir3 "final_output_" = none →
      (run_complete_pipeline c env ps pe cbr td).success = some false ∧
      (run_complete_pipeline c env ps pe cbr td).error
        = some "Could not find final output file" ∧
      (run_complete_pipeline c env ps pe cbr td).failed_at = none ∧
      (run_complete_pipeline c env ps pe cbr td).stages.map Prod.fst
        = ["agent_1", "agent_2", "agent_3"]) := by
  refine ⟨?_, ?_, ?_⟩
  · intro hf1
    unfold run_complete_pipeline
    simp [hv, h1, hf1]
  · intro o1 hf1 h2 hf2
    unfold run_complete_pipeline
    simp [hv, h1, hf1, h2, hf2]
  · intro o1 o2 hf1 h2 hf2 h3 hf3
    unfold run_complete_pipeline
    simp [hv, h1, hf1, h2, hf2, h3, hf3]

/-- C3 witness: the concrete missing-artifact-after-stage-2 run. -/
theorem claim_C3_witness :
    (run_complete_pipeline coordW envArtifact2Missing 0 0 "c.cbr" 75).stages.map
      Prod.fst = ["agent_1", "agent_2"] :=
  ((claim_C3 coordW envArtifact2Missing 0 0 "c.cbr" 75
    (by decide) (by decide)).2.1 "agent_1_output_1.json"
    (by decide) (by decide) (by decide)).2.2.2

/-- The copy-to-results-directory step cannot influence the returned run
result: the `try`/`except` around `shutil.copy` only logs on failure. -/
theorem copy_result_irrelevant (c : Coordinator)
    (fs : String → Bool) (sub : String → List String → AgentBehavior)
    (l1 l2 l3 : Except String (List DirEntry)) (x y : Except String Unit)
    (ps pe : Nat) (cbr : String) (td : Int) :
    run_complete_pipeline c ⟨fs, sub, l1, l2, l3, x⟩ ps pe cbr td
      = run_complete_pipeline c ⟨fs, sub, l1, l2, l3, y⟩ ps pe cbr td := by
  unfold run_complete_pipeline
  dsimp only
  repeat' split
  all_goals rfl

/-- C8: if a run succeeds, the same run with the artifact-copying step
failing returns the very same result — in particular it is still reported
as succeeded (archiving is best-effort, non-fatal). -/
theorem claim_C8 (c : Coordinator)
    (fs : String → Bool) (sub : String → List String → AgentBehavior)
    (l1 l2 l3 : Except String (List DirEntry)) (cr : Except String Unit)
    (msg : String) (ps pe : Nat) (cbr : String) (td : Int)
    (h : (run_complete_pipeline c ⟨fs, sub, l1, l2, l3, cr⟩ ps pe cbr td).success
      = some true) :
    (run_complete_pipeline c ⟨fs, sub, l1, l2, l3, Except.error msg⟩ ps pe cbr td).success
      = some true ∧
    run_complete_pipeline c ⟨fs, sub, l1, l2, l3, Except.error msg⟩ ps pe cbr td
      = run_complete_pipeline c ⟨fs, sub, l1, l2, l3, cr⟩ ps pe cbr td := by
  have e := copy_result_irrelevant c fs sub l1 l2 l3 (Except.error msg) cr ps pe cbr td
  exact ⟨e ▸ h, e⟩

/-- C8 witness: the concrete all-success run still succeeds when the copy
step raises. -/
theorem claim_C8_witness :
    (run_complete_pipeline coordW
      ⟨fun _ => true, fun _ _ => AgentBehavior.runs 1 0 "so" "se",
       Except.ok [⟨"agent_1_output_1.json", 1⟩],
       Except.ok [⟨"agent_2_output_1.json", 2⟩],
       Except.ok [⟨"final_output_1.json", 3⟩],
       Except.error "disk full"⟩ 0 9 "c.cbr" 75).success = some true :=
  (claim_C8 coordW (fun _ => true) (fun _ _ => AgentBehavior.runs 1 0 "so" "se")
    (Except.ok [⟨"agent_1_output_1.json", 1⟩])
    (Except.ok [⟨"agent_2_output_1.json", 2⟩])
    (Except.ok [⟨"final_output_1.json", 3⟩])
    (Except.ok ()) "disk full" 0 9 "c.cbr" 75 (by decide)).1

/-- C9: the Report Generator is a pure, deterministic function of the
`PipelineRun` value: it is a plain Lean function, so rendering equal run
values (in particular, the same value twice) yields character-identical
text. -/
theorem claim_C9 (r₁ r₂ : PipelineResults) (h : r₁ = r₂) :
    generate_pipeline_report r₁ = generate_pipeline_report r₂ := by
  rw [h]

/-- C9 witness: rendering the empty run value twice yields identical
text. -/
theorem claim_C9_witness :
    generate_pipeline_report {} = generate_pipeline_report {} :=
  claim_C9 {} {} rfl

end PipelineCoordinator
